import Mathlib

/-!
Shallow embedding of the climate credit-risk engine
(`src/lib/climateEngine.ts` and the report assembly in the dashboard page).

JavaScript numbers are modelled as rationals (`ℚ`).  `Math.round` rounds
half toward +∞ (`⌊x + 1/2⌋`); `Number.prototype.toFixed(d)` picks the
integer `n` closest to `x·10^d`, ties to the larger `n` (so, after the
sign is split off, half up on the absolute value); `parseFloat` of the
resulting decimal string is exact on `ℚ`.
-/

namespace ClimateGuardian

/-- JS `Math.round`: rounds half toward positive infinity. -/
def jsRound (x : ℚ) : ℤ := ⌊x + 1/2⌋

/-- Numeric value of `parseFloat(x.toFixed(1))`: one decimal digit,
ties away from zero (ECMA `toFixed` applies half-up to the absolute value
after splitting off the sign). -/
def round1 (x : ℚ) : ℚ :=
  if x < 0 then -((⌊-x * 10 + 1/2⌋ : ℤ) : ℚ) / 10
  else ((⌊x * 10 + 1/2⌋ : ℤ) : ℚ) / 10

/-- Pads a natural number's decimal string on the left with zeros up to `d` digits. -/
def natPad (d : ℕ) (m : ℕ) : String :=
  let s := toString m
  String.mk (List.replicate (d - s.length) '0') ++ s

/-- String produced by ECMA `x.toFixed(d)` on a rational. -/
def toFixed (d : ℕ) (x : ℚ) : String :=
  let sign := if x < 0 then "-" else ""
  let n := (⌊|x| * (10 : ℚ) ^ d + 1/2⌋).toNat
  sign ++ toString (n / 10 ^ d) ++ "." ++ natPad d (n % 10 ^ d)

-- ───────────────────────────────────────────────────────────
-- Data model (src/types/climate.ts)
-- ───────────────────────────────────────────────────────────

inductive RiskClassification where
  | Low | Moderate | High | Severe
  deriving DecidableEq, Repr

structure ClimateFactorScore where
  factor : String
  score : ℚ
  weight : ℚ
  weighted_score : ℚ
  description : String
  data_source : String
  deriving DecidableEq, Repr

structure ProjectionDataPoint where
  year : ℤ
  flood_risk : ℚ
  heat_stress : ℚ
  sea_level_rise : ℚ
  water_scarcity : ℚ
  composite_risk : ℚ
  deriving DecidableEq, Repr

inductive AdjustmentType where
  | interest_rate | insurance | risk_warning | loan_cap | enhanced_due_diligence
  deriving DecidableEq, Repr

inductive Severity where
  | info | warning | critical
  deriving DecidableEq, Repr

structure LendingAdjustment where
  type : AdjustmentType
  title : String
  description : String
  value : String
  severity : Severity
  deriving DecidableEq, Repr

-- ───────────────────────────────────────────────────────────
-- Region resolver (getRegionProfile)
-- ───────────────────────────────────────────────────────────

structure RegionProfile where
  name : String
  region : String
  flood_base : ℚ
  sea_level_base : ℚ
  heat_base : ℚ
  water_scarcity_base : ℚ
  deriving DecidableEq, Repr

/-- Guard of the Chennai box: `lng >= 79 && lng <= 80.5 && lat >= 8 && lat <= 13`. -/
def chennaiBox (lat lng : ℚ) : Bool :=
  79 ≤ lng && lng ≤ 80.5 && 8 ≤ lat && lat ≤ 13

/-- Guard of the Mumbai box: `lng >= 72 && lng <= 73.5 && lat >= 18 && lat <= 19.5`. -/
def mumbaiBox (lat lng : ℚ) : Bool :=
  72 ≤ lng && lng ≤ 73.5 && 18 ≤ lat && lat ≤ 19.5

/-- Guard of the Kolkata box: `lng >= 88 && lng <= 89 && lat >= 22 && lat <= 23`. -/
def kolkataBox (lat lng : ℚ) : Bool :=
  88 ≤ lng && lng ≤ 89 && 22 ≤ lat && lat ≤ 23

/-- Guard of the Kerala box: `lng >= 76 && lng <= 77.5 && lat >= 8 && lat <= 9`. -/
def keralaBox (lat lng : ℚ) : Bool :=
  76 ≤ lng && lng ≤ 77.5 && 8 ≤ lat && lat ≤ 9

/-- Guard of the Indo-Gangetic box: `lng >= 76 && lng <= 88 && lat >= 24 && lat <= 30`. -/
def indoGangeticBox (lat lng : ℚ) : Bool :=
  76 ≤ lng && lng ≤ 88 && 24 ≤ lat && lat ≤ 30

/-- Guard of the Rajasthan box: `lng >= 69 && lng <= 77 && lat >= 24 && lat <= 30`. -/
def rajasthanBox (lat lng : ℚ) : Bool :=
  69 ≤ lng && lng ≤ 77 && 24 ≤ lat && lat ≤ 30

/-- Guard of the Deccan box: `lng >= 74 && lng <= 80 && lat >= 14 && lat <= 22`. -/
def deccanBox (lat lng : ℚ) : Bool :=
  74 ≤ lng && lng ≤ 80 && 14 ≤ lat && lat ≤ 22

/-- Guard of the Northeast box: `lng >= 89 && lat >= 23 && lat <= 30`. -/
def northeastBox (lat lng : ℚ) : Bool :=
  89 ≤ lng && 23 ≤ lat && lat ≤ 30

/-- Guard of the Gujarat box: `lng >= 68 && lng <= 75 && lat >= 20 && lat <= 24`. -/
def gujaratBox (lat lng : ℚ) : Bool :=
  68 ≤ lng && lng ≤ 75 && 20 ≤ lat && lat ≤ 24

/-- Region resolver: ordered axis-aligned bounding-box checks, first match
wins, default "Interior India" profile embedding the `toFixed(2)` rendered
coordinates in its name. -/
def getRegionProfile (lat lng : ℚ) : RegionProfile :=
  if chennaiBox lat lng then
    ⟨"Chennai Metropolitan Region", "Tamil Nadu Coast", 72, 68, 75, 62⟩
  else if mumbaiBox lat lng then
    ⟨"Mumbai Metropolitan Area", "Maharashtra Coast", 78, 74, 65, 45⟩
  else if kolkataBox lat lng then
    ⟨"Kolkata Urban Agglomeration", "West Bengal Delta", 85, 80, 70, 30⟩
  else if keralaBox lat lng then
    ⟨"Thiruvananthapuram District", "Kerala Coast", 75, 65, 55, 20⟩
  else if indoGangeticBox lat lng then
    ⟨"Indo-Gangetic Plain", "Northern India", 60, 10, 85, 70⟩
  else if rajasthanBox lat lng then
    ⟨"Rajasthan Arid Zone", "Northwestern India", 20, 5, 95, 90⟩
  else if deccanBox lat lng then
    ⟨"Deccan Plateau Region", "Central India", 40, 8, 78, 65⟩
  else if northeastBox lat lng then
    ⟨"Northeast India", "Brahmaputra Basin", 88, 15, 55, 15⟩
  else if gujaratBox lat lng then
    ⟨"Gujarat Coastal Zone", "Western India", 55, 58, 80, 72⟩
  else
    ⟨"Location (" ++ toFixed 2 lat ++ "°N, " ++ toFixed 2 lng ++ "°E)",
     "Interior India", 38, 12, 68, 55⟩

-- ───────────────────────────────────────────────────────────
-- Risk classification (classifyRisk)
-- ───────────────────────────────────────────────────────────

/-- Pure threshold classifier. -/
def classifyRisk (score : ℚ) : RiskClassification :=
  if score < 25 then .Low
  else if score < 50 then .Moderate
  else if score < 75 then .High
  else .Severe

-- ───────────────────────────────────────────────────────────
-- Property type modifiers (PROPERTY_MODIFIERS)
-- ───────────────────────────────────────────────────────────

structure PropertyModifier where
  flood : ℚ
  heat : ℚ
  sea : ℚ
  water : ℚ
  deriving DecidableEq, Repr

/-- Lookup in the `PROPERTY_MODIFIERS` record: `none` models a key that is
absent from the record (JS `undefined`). -/
def propertyModifiers (propertyType : String) : Option PropertyModifier :=
  if propertyType = "residential" then some ⟨0, 5, 0, 0⟩
  else if propertyType = "commercial" then some ⟨-5, 8, 5, 5⟩
  else if propertyType = "industrial" then some ⟨10, 10, 8, 15⟩
  else if propertyType = "agricultural" then some ⟨15, 15, 5, 20⟩
  else if propertyType = "mixed_use" then some ⟨5, 8, 5, 8⟩
  else none

-- ───────────────────────────────────────────────────────────
-- Core scoring engine (calculateFactorScores)
-- ───────────────────────────────────────────────────────────

/-- The scorer's clamp helper: `(v) => Math.max(0, Math.min(100, Math.round(v)))`. -/
def clampQ (v : ℚ) : ℚ := max 0 (min 100 ((jsRound v : ℤ) : ℚ))

/-- Factor scorer.  The four `noise()` draws are passed explicitly, in the
order the source makes them (flood, sea, heat, water); each models one
`(Math.random() - 0.5) * 12` value. -/
def calculateFactorScores (lat lng : ℚ) (propertyType : String)
    (n1 n2 n3 n4 : ℚ) : List ClimateFactorScore :=
  let profile := getRegionProfile lat lng
  let mod := (propertyModifiers propertyType).getD ⟨0, 5, 0, 0⟩
  let floodScore := clampQ (profile.flood_base + mod.flood + n1)
  let seaScore := clampQ (profile.sea_level_base + mod.sea + n2)
  let heatScore := clampQ (profile.heat_base + mod.heat + n3)
  let waterScore := clampQ (profile.water_scarcity_base + mod.water + n4)
  [ { factor := "Flood Probability",
      score := floodScore,
      weight := 0.35,
      weighted_score := round1 (floodScore * 0.35),
      description := (if floodScore > 60 then "High" else if floodScore > 35 then "Moderate" else "Low")
        ++ " annual flood inundation probability. Based on IMD rainfall anomaly data and NATMO flood hazard maps.",
      data_source := "IMD Gridded Rainfall + NATMO Flood Hazard Atlas" },
    { factor := "Sea-Level Rise Exposure",
      score := seaScore,
      weight := 0.25,
      weighted_score := round1 (seaScore * 0.25),
      description := "IPCC AR6 SSP2-4.5 scenario projects " ++ toFixed 2 (seaScore * 0.05)
        ++ "m sea-level rise by 2050. Coastal proximity amplifies long-term asset devaluation risk.",
      data_source := "IPCC AR6 Sea-Level Projections + INCOIS Coastal Vulnerability Index" },
    { factor := "Heat Stress Index",
      score := heatScore,
      weight := 0.25,
      weighted_score := round1 (heatScore * 0.25),
      description := "Wet-Bulb Globe Temperature (WBGT) analysis indicates "
        ++ (if heatScore > 70 then "dangerous" else if heatScore > 45 then "elevated" else "manageable")
        ++ " heat exposure. Affects habitability and property operational costs.",
      data_source := "NIUA Heat Action Plans + IMD Temperature Projections" },
    { factor := "Water Scarcity Projection",
      score := waterScore,
      weight := 0.15,
      weighted_score := round1 (waterScore * 0.15),
      description := "CWMI composite score indicates "
        ++ (if waterScore > 60 then "critical" else if waterScore > 40 then "stressed" else "adequate")
        ++ " water availability through 2040. Groundwater depletion rate factored in.",
      data_source := "NITI Aayog CWMI + CGWB Groundwater Atlas" } ]

-- ───────────────────────────────────────────────────────────
-- Projection engine (generateProjections)
-- ───────────────────────────────────────────────────────────

/-- Models `factors.find(f => f.factor === name)?.score ?? d`. -/
def findScoreD (name : String) (d : ℚ) (factors : List ClimateFactorScore) : ℚ :=
  match factors.find? (fun f => f.factor == name) with
  | some f => f.score
  | none => d

/-- Body of the mapping closure in `generateProjections`, hoisted out and
parameterized by the four bases it captures. -/
def projectionPoint (floodBase heatBase seaBase waterBase : ℚ) (baseYear : ℤ)
    (i : ℕ) : ProjectionDataPoint :=
  let t : ℚ := (i : ℚ) / 10
  let flood_risk := min 100 (floodBase + t * 18 + t * t * 7)
  let heat_stress := min 100 (heatBase + t * 15 + t * t * 9)
  let sea_level_rise := min 100 (seaBase + t * 22 + t * t * 5)
  let water_scarcity := min 100 (waterBase + t * 12 + t * t * 6)
  { year := baseYear + (i : ℤ) * 2,
    flood_risk := round1 flood_risk,
    heat_stress := round1 heat_stress,
    sea_level_rise := round1 sea_level_rise,
    water_scarcity := round1 water_scarcity,
    composite_risk := round1
      (flood_risk * 0.35 + sea_level_rise * 0.25 + heat_stress * 0.25 + water_scarcity * 0.15) }

/-- Projection generator.  `baseYear` stands for `new Date().getFullYear()`,
which the source reads from the wall clock. -/
def generateProjections (baseYear : ℤ) (factors : List ClimateFactorScore) :
    List ProjectionDataPoint :=
  let floodBase := findScoreD "Flood Probability" 50 factors
  let heatBase := findScoreD "Heat Stress Index" 50 factors
  let seaBase := findScoreD "Sea-Level Rise Exposure" 50 factors
  let waterBase := findScoreD "Water Scarcity Projection" 50 factors
  (List.range 11).map (projectionPoint floodBase heatBase seaBase waterBase baseYear)

-- ───────────────────────────────────────────────────────────
-- Lending adjustment engine (generateLendingAdjustments)
-- ───────────────────────────────────────────────────────────

/-- Lending adjustment rule list, in source evaluation order. -/
def generateLendingAdjustments (score : ℚ) (classification : RiskClassification)
    (propertyType : String) (factors : List ClimateFactorScore) : List LendingAdjustment :=
  let floodScore := findScoreD "Flood Probability" 0 factors
  let seaScore := findScoreD "Sea-Level Rise Exposure" 0 factors
  let rateAdj : ℚ := if score < 25 then 0 else if score < 50 then 0.5
    else if score < 75 then 1.5 else 2.5
  (if rateAdj > 0 then
    [ { type := .interest_rate,
        title := "Climate Risk Premium",
        description := "Apply a climate-adjusted interest rate premium to compensate for elevated default risk from physical climate hazards. Based on RBI Climate Risk Framework (2024).",
        value := "+" ++ toFixed 1 rateAdj ++ "% p.a.",
        severity := if classification = .Severe then .critical
          else if classification = .High then .warning else .info } ]
   else []) ++
  (if floodScore > 40 then
    [ { type := .insurance,
        title := if floodScore > 65 then "Mandatory Flood Insurance" else "Recommended Flood Cover",
        description := "Property is in "
          ++ (if floodScore > 65 then "a high-probability flood zone" else "a moderate flood-risk area")
          ++ ". "
          ++ (if floodScore > 65 then "Flood insurance is a mandatory loan condition."
              else "Flood insurance is strongly recommended."),
        value := if floodScore > 65 then "Mandatory" else "Recommended",
        severity := if floodScore > 65 then .critical else .warning } ]
   else []) ++
  (if seaScore > 50 then
    [ { type := .insurance,
        title := "Coastal Hazard Insurance",
        description := "Significant sea-level rise exposure detected. Comprehensive coastal hazard coverage required including storm surge and tidal flooding events.",
        value := "Required",
        severity := if seaScore > 70 then .critical else .warning } ]
   else []) ++
  (if classification = .High ∨ classification = .Severe then
    let capPct : ℕ := if classification = .Severe then 60 else 70
    [ { type := .loan_cap,
        title := "Loan-to-Value Cap",
        description := "Restrict maximum LTV ratio to " ++ toString capPct
          ++ "% due to elevated climate risk. Future asset devaluation from climate hazards may erode collateral value.",
        value := "Max " ++ toString capPct ++ "% LTV",
        severity := if classification = .Severe then .critical else .warning } ]
   else []) ++
  (if classification = .Severe then
    [ { type := .enhanced_due_diligence,
        title := "Enhanced Climate Due Diligence",
        description := "Mandatory independent climate risk assessment by an accredited third-party environmental consultant before loan sanction. Board-level approval required for all loans above ₹5 Cr.",
        value := "Required",
        severity := .critical } ]
   else []) ++
  (if classification = .Low then
    [ { type := .risk_warning,
        title := "Standard Lending Terms Applicable",
        description := "Climate risk assessment indicates low exposure. Standard lending terms apply. Annual climate risk review recommended as part of portfolio monitoring.",
        value := "No adjustment",
        severity := .info } ]
   else []) ++
  (if propertyType = "agricultural" ∧ score > 40 then
    [ { type := .risk_warning,
        title := "Kharif/Rabi Season Risk",
        description := "Agricultural property in a climate-stressed zone. Consider weather-indexed crop insurance linkage and staggered disbursement tied to seasonal rainfall assessment.",
        value := "Conditional",
        severity := .warning } ]
   else [])

-- ───────────────────────────────────────────────────────────
-- Report assembly (runClimateAssessment, dashboard page)
-- ───────────────────────────────────────────────────────────

/-- Deterministic part of `ClimateRiskReport`.  The fields drawn from the
wall clock and a separate random draw (`confidence_level`,
`assessment_date`) are omitted; no claim mentions them. -/
structure ClimateRiskReport where
  latitude : ℚ
  longitude : ℚ
  property_type : String
  location_name : String
  region : String
  climate_risk_score : ℚ
  risk_classification : RiskClassification
  factors : List ClimateFactorScore
  projections : List ProjectionDataPoint
  lending_adjustments : List LendingAdjustment
  model_version : String
  data_vintage : String
  deriving DecidableEq, Repr

/-- Report assembly from the dashboard page's mock API call; the noise
draws and the current year are passed explicitly. -/
def runClimateAssessment (lat lng : ℚ) (propertyType : String)
    (n1 n2 n3 n4 : ℚ) (baseYear : ℤ) : ClimateRiskReport :=
  let factors := calculateFactorScores lat lng propertyType n1 n2 n3 n4
  let rawScore := (factors.map fun f => f.weighted_score).sum
  let score : ℚ := min 100 (max 0 ((jsRound rawScore : ℤ) : ℚ))
  let classification := classifyRisk score
  let profile := getRegionProfile lat lng
  { latitude := lat,
    longitude := lng,
    property_type := propertyType,
    location_name := profile.name,
    region := profile.region,
    climate_risk_score := score,
    risk_classification := classification,
    factors := factors,
    projections := generateProjections baseYear factors,
    lending_adjustments := generateLendingAdjustments score classification propertyType factors,
    model_version := "v2.1.0-beta",
    data_vintage := "IMD 2023 · IPCC AR6" }

-- ───────────────────────────────────────────────────────────
-- Helper lemmas
-- ───────────────────────────────────────────────────────────

lemma round1_mono {x y : ℚ} (h : x ≤ y) : round1 x ≤ round1 y := by
  unfold round1
  split_ifs with hx hy hy
  · have hf : (⌊-y * 10 + 1/2⌋ : ℤ) ≤ ⌊-x * 10 + 1/2⌋ := Int.floor_mono (by linarith)
    have hf' : ((⌊-y * 10 + 1/2⌋ : ℤ) : ℚ) ≤ ((⌊-x * 10 + 1/2⌋ : ℤ) : ℚ) := by exact_mod_cast hf
    linarith
  · have h1 : (0 : ℤ) ≤ ⌊-x * 10 + 1/2⌋ := Int.le_floor.mpr (by push_cast; linarith)
    have h2 : (0 : ℤ) ≤ ⌊y * 10 + 1/2⌋ := Int.le_floor.mpr (by push_cast; linarith)
    have h1' : (0 : ℚ) ≤ ((⌊-x * 10 + 1/2⌋ : ℤ) : ℚ) := by exact_mod_cast h1
    have h2' : (0 : ℚ) ≤ ((⌊y * 10 + 1/2⌋ : ℤ) : ℚ) := by exact_mod_cast h2
    linarith
  · exact absurd (lt_of_le_of_lt h hy) hx
  · have hf : (⌊x * 10 + 1/2⌋ : ℤ) ≤ ⌊y * 10 + 1/2⌋ := Int.floor_mono (by linarith)
    have hf' : ((⌊x * 10 + 1/2⌋ : ℤ) : ℚ) ≤ ((⌊y * 10 + 1/2⌋ : ℤ) : ℚ) := by exact_mod_cast hf
    linarith

lemma round1_hundred : round1 (100 : ℚ) = 100 := by
  unfold round1
  rw [if_neg (by norm_num)]
  have h : ⌊(100 : ℚ) * 10 + 1/2⌋ = 1000 := by
    rw [Int.floor_eq_iff]
    norm_num
  rw [h]
  norm_num

lemma abs_round1_sub_le (x : ℚ) : |round1 x - x| ≤ 1/20 := by
  unfold round1
  split_ifs with hx
  · rw [abs_le]
    have h1 : ((⌊-x * 10 + 1/2⌋ : ℤ) : ℚ) ≤ -x * 10 + 1/2 := Int.floor_le _
    have h2 : -x * 10 + 1/2 - 1 < ((⌊-x * 10 + 1/2⌋ : ℤ) : ℚ) := Int.sub_one_lt_floor _
    constructor <;> linarith
  · rw [abs_le]
    have h1 : ((⌊x * 10 + 1/2⌋ : ℤ) : ℚ) ≤ x * 10 + 1/2 := Int.floor_le _
    have h2 : x * 10 + 1/2 - 1 < ((⌊x * 10 + 1/2⌋ : ℤ) : ℚ) := Int.sub_one_lt_floor _
    constructor <;> linarith

lemma round1_min_hundred_le (e : ℚ) : round1 (min 100 e) ≤ 100 := by
  have := round1_mono (min_le_left (100 : ℚ) e)
  rwa [round1_hundred] at this

lemma round1_min_hundred_sat {a b : ℚ} (hab : a ≤ b)
    (h : round1 (min 100 a) = 100) : round1 (min 100 b) = 100 := by
  refine le_antisymm (round1_min_hundred_le b) ?_
  have hm := round1_mono (min_le_min (le_refl (100 : ℚ)) hab)
  rw [h] at hm
  exact hm

lemma clampQ_nonneg (v : ℚ) : 0 ≤ clampQ v := le_max_left _ _

lemma clampQ_le_hundred (v : ℚ) : clampQ v ≤ 100 :=
  max_le (by norm_num) (min_le_left _ _)

lemma floor_eval {r : ℚ} (n : ℤ) (h1 : (n : ℚ) ≤ r) (h2 : r < (n : ℚ) + 1) :
    ⌊r⌋ = n := by
  rw [Int.floor_eq_iff]
  exact ⟨h1, by exact_mod_cast h2⟩

lemma classifyRisk_iff (s : ℚ) :
    (classifyRisk s = .Low ↔ s < 25) ∧
    (classifyRisk s = .Moderate ↔ 25 ≤ s ∧ s < 50) ∧
    (classifyRisk s = .High ↔ 50 ≤ s ∧ s < 75) ∧
    (classifyRisk s = .Severe ↔ 75 ≤ s) := by
  unfold classifyRisk
  split_ifs with g1 g2 g3 <;> refine ⟨?_, ?_, ?_, ?_⟩
  · exact iff_of_true rfl g1
  · exact iff_of_false (by decide) (by intro h; linarith [h.1])
  · exact iff_of_false (by decide) (by intro h; linarith [h.1])
  · exact iff_of_false (by decide) (by intro h; linarith)
  · exact iff_of_false (by decide) g1
  · exact iff_of_true rfl ⟨not_lt.mp g1, g2⟩
  · exact iff_of_false (by decide) (by intro h; linarith [h.1])
  · exact iff_of_false (by decide) (by intro h; linarith)
  · exact iff_of_false (by decide) g1
  · exact iff_of_false (by decide) (by intro h; exact g2 h.2)
  · exact iff_of_true rfl ⟨not_lt.mp g2, g3⟩
  · exact iff_of_false (by decide) (by intro h; linarith)
  · exact iff_of_false (by decide) g1
  · exact iff_of_false (by decide) (by intro h; exact g2 h.2)
  · exact iff_of_false (by decide) (by intro h; exact g3 h.2)
  · exact iff_of_true rfl (not_lt.mp g3)

lemma clampQ_eval {v : ℚ} (n : ℤ) (h1 : (n : ℚ) ≤ v + 1/2) (h2 : v + 1/2 < (n : ℚ) + 1)
    (h3 : (0 : ℚ) ≤ (n : ℚ)) (h4 : (n : ℚ) ≤ 100) : clampQ v = (n : ℚ) := by
  unfold clampQ jsRound
  rw [floor_eval n h1 h2, min_eq_right h4, max_eq_right h3]

lemma round1_eval {x : ℚ} (n : ℤ) (hx : ¬ x < 0) (h1 : (n : ℚ) ≤ x * 10 + 1/2)
    (h2 : x * 10 + 1/2 < (n : ℚ) + 1) : round1 x = (n : ℚ) / 10 := by
  unfold round1
  rw [if_neg hx, floor_eval n h1 h2]

lemma bengaluru_no_box :
    chennaiBox 12.97 77.59 = false ∧ mumbaiBox 12.97 77.59 = false ∧
    kolkataBox 12.97 77.59 = false ∧ keralaBox 12.97 77.59 = false ∧
    indoGangeticBox 12.97 77.59 = false ∧ rajasthanBox 12.97 77.59 = false ∧
    deccanBox 12.97 77.59 = false ∧ northeastBox 12.97 77.59 = false ∧
    gujaratBox 12.97 77.59 = false := by
  refine ⟨?_, ?_, ?_, ?_, ?_, ?_, ?_, ?_, ?_⟩
  · simp only [chennaiBox]; norm_num
  · simp only [mumbaiBox]; norm_num
  · simp only [kolkataBox]; norm_num
  · simp only [keralaBox]; norm_num
  · simp only [indoGangeticBox]; norm_num
  · simp only [rajasthanBox]; norm_num
  · simp only [deccanBox]; norm_num
  · simp only [northeastBox]; norm_num
  · simp only [gujaratBox]; norm_num

lemma getRegionProfile_bengaluru :
    getRegionProfile 12.97 77.59 =
      { name := "Location (12.97°N, 77.59°E)", region := "Interior India",
        flood_base := 38, sea_level_base := 12, heat_base := 68,
        water_scarcity_base := 55 } := by
  obtain ⟨h1, h2, h3, h4, h5, h6, h7, h8, h9⟩ := bengaluru_no_box
  rw [getRegionProfile, h1, h2, h3, h4, h5, h6, h7, h8, h9]
  simp only [Bool.false_eq_true, if_false]
  have hf : (⌊|(12.97 : ℚ)| * (10 : ℚ) ^ 2 + 1/2⌋ : ℤ) = 1297 :=
    floor_eval 1297
      (by rw [abs_of_nonneg (by norm_num : (0:ℚ) ≤ 12.97)]; norm_num)
      (by rw [abs_of_nonneg (by norm_num : (0:ℚ) ≤ 12.97)]; norm_num)
  have hg : (⌊|(77.59 : ℚ)| * (10 : ℚ) ^ 2 + 1/2⌋ : ℤ) = 7759 :=
    floor_eval 7759
      (by rw [abs_of_nonneg (by norm_num : (0:ℚ) ≤ 77.59)]; norm_num)
      (by rw [abs_of_nonneg (by norm_num : (0:ℚ) ≤ 77.59)]; norm_num)
  simp only [toFixed, if_neg (by norm_num : ¬ (12.97 : ℚ) < 0),
    if_neg (by norm_num : ¬ (77.59 : ℚ) < 0), hf, hg]
  rfl

-- ───────────────────────────────────────────────────────────
-- Claim theorems
-- ───────────────────────────────────────────────────────────

/-- Claim C3: the point (lat 12.97, lng 77.59) matches none of the nine
explicit bounding boxes — in particular it is outside the Deccan Plateau
box, whose latitude range starts at 14 — so `getRegionProfile` returns the
default "Interior India" profile, whose name embeds the `toFixed(2)`
rendering of the input coordinates. -/
theorem C3_bengaluru_interior_fallback :
    chennaiBox 12.97 77.59 = false ∧ mumbaiBox 12.97 77.59 = false ∧
    kolkataBox 12.97 77.59 = false ∧ keralaBox 12.97 77.59 = false ∧
    indoGangeticBox 12.97 77.59 = false ∧ rajasthanBox 12.97 77.59 = false ∧
    deccanBox 12.97 77.59 = false ∧ northeastBox 12.97 77.59 = false ∧
    gujaratBox 12.97 77.59 = false ∧
    getRegionProfile 12.97 77.59 =
      { name := "Location (12.97°N, 77.59°E)", region := "Interior India",
        flood_base := 38, sea_level_base := 12, heat_base := 68,
        water_scarcity_base := 55 } := by
  obtain ⟨h1, h2, h3, h4, h5, h6, h7, h8, h9⟩ := bengaluru_no_box
  exact ⟨h1, h2, h3, h4, h5, h6, h7, h8, h9, getRegionProfile_bengaluru⟩

/-- Claim C4: `classifyRisk` is the exact threshold function with strict
boundaries at 25, 50 and 75, including the six boundary evaluations the
spec lists; it is total by construction. -/
theorem C4_classify_boundaries :
    (∀ s : ℚ,
      (classifyRisk s = .Low ↔ s < 25) ∧
      (classifyRisk s = .Moderate ↔ 25 ≤ s ∧ s < 50) ∧
      (classifyRisk s = .High ↔ 50 ≤ s ∧ s < 75) ∧
      (classifyRisk s = .Severe ↔ 75 ≤ s)) ∧
    classifyRisk 24.9 = .Low ∧ classifyRisk 25 = .Moderate ∧
    classifyRisk 49.9 = .Moderate ∧ classifyRisk 50 = .High ∧
    classifyRisk 74.9 = .High ∧ classifyRisk 75 = .Severe :=
  ⟨classifyRisk_iff,
   (classifyRisk_iff 24.9).1.mpr (by norm_num),
   (classifyRisk_iff 25).2.1.mpr (by norm_num),
   (classifyRisk_iff 49.9).2.1.mpr (by norm_num),
   (classifyRisk_iff 50).2.2.1.mpr (by norm_num),
   (classifyRisk_iff 74.9).2.2.1.mpr (by norm_num),
   (classifyRisk_iff 75).2.2.2.mpr (by norm_num)⟩

/-- Claim C5: for every coordinate pair, property type and noise values,
`calculateFactorScores` returns exactly 4 factors in the fixed order with
weights 0.35, 0.25, 0.25, 0.15 summing to 1. -/
theorem C5_factor_list_shape (lat lng n1 n2 n3 n4 : ℚ) (pt : String) :
    (calculateFactorScores lat lng pt n1 n2 n3 n4).length = 4 ∧
    (calculateFactorScores lat lng pt n1 n2 n3 n4).map (fun f => f.factor) =
      ["Flood Probability", "Sea-Level Rise Exposure", "Heat Stress Index",
       "Water Scarcity Projection"] ∧
    (calculateFactorScores lat lng pt n1 n2 n3 n4).map (fun f => f.weight) =
      [0.35, 0.25, 0.25, 0.15] ∧
    ((calculateFactorScores lat lng pt n1 n2 n3 n4).map (fun f => f.weight)).sum = 1 := by
  refine ⟨rfl, rfl, rfl, ?_⟩
  show (0.35 : ℚ) + (0.25 + (0.25 + (0.15 + 0))) = 1
  norm_num

/-- Claim C9: a property type outside the five known tags misses the
modifier record, so the scorer silently falls back to the residential
modifier set and produces exactly the residential result. -/
theorem C9_unknown_type_fallback (pt : String)
    (hpt : pt ∉ (["residential", "commercial", "industrial", "agricultural",
      "mixed_use"] : List String)) (lat lng n1 n2 n3 n4 : ℚ) :
    calculateFactorScores lat lng pt n1 n2 n3 n4 =
      calculateFactorScores lat lng "residential" n1 n2 n3 n4 := by
  simp only [List.mem_cons, List.not_mem_nil, or_false, not_or] at hpt
  obtain ⟨ha, hb, hc, hd, he⟩ := hpt
  have h : propertyModifiers pt = none := by
    simp only [propertyModifiers, if_neg ha, if_neg hb, if_neg hc, if_neg hd,
      if_neg he]
  simp only [calculateFactorScores, h]
  rfl

/-- Witness for C9 at the unknown tag "farmhouse". -/
theorem C9_witness :
    ("farmhouse" ∉ (["residential", "commercial", "industrial", "agricultural",
      "mixed_use"] : List String)) ∧
    calculateFactorScores 19.05 72.83 "farmhouse" 1 2 3 4 =
      calculateFactorScores 19.05 72.83 "residential" 1 2 3 4 :=
  ⟨by decide, C9_unknown_type_fallback "farmhouse" (by decide) 19.05 72.83 1 2 3 4⟩

/-- Claim C10 (implicit): when the classification argument agrees with
`classifyRisk score`, the adjustment list is never empty — a Low
classification always emits the informational standard-terms note, and any
other classification forces a positive rate premium, hence an
interest-rate adjustment. -/
theorem C10_consistent_nonempty (score : ℚ) (classification : RiskClassification)
    (pt : String) (factors : List ClimateFactorScore)
    (h : classification = classifyRisk score) :
    generateLendingAdjustments score classification pt factors ≠ [] ∧
    (classification = .Low →
      (AdjustmentType.risk_warning, "Standard Lending Terms Applicable", Severity.info) ∈
        (generateLendingAdjustments score classification pt factors).map
          (fun a => (a.type, a.title, a.severity))) ∧
    (classification ≠ .Low →
      AdjustmentType.interest_rate ∈
        (generateLendingAdjustments score classification pt factors).map
          (fun a => a.type)) := by
  by_cases hs : score < 25
  · have hcl : classification = .Low := by
      rw [h]; exact (classifyRisk_iff score).1.mpr hs
    subst hcl
    refine ⟨?_, fun _ => ?_, fun hne => absurd rfl hne⟩
    · apply List.ne_nil_of_mem (a :=
        { type := .risk_warning,
          title := "Standard Lending Terms Applicable",
          description := "Climate risk assessment indicates low exposure. Standard lending terms apply. Annual climate risk review recommended as part of portfolio monitoring.",
          value := "No adjustment",
          severity := .info })
      simp only [generateLendingAdjustments, List.mem_append]
      tauto
    · simp only [generateLendingAdjustments, List.map_append, List.mem_append]
      simp
  · have hcl : classification ≠ .Low := by
      rw [h]
      intro hlow
      exact hs ((classifyRisk_iff score).1.mp hlow)
    have hrate : AdjustmentType.interest_rate ∈
        (generateLendingAdjustments score classification pt factors).map
          (fun a => a.type) := by
      by_cases hs2 : score < 50
      · simp only [generateLendingAdjustments, if_neg hs, if_pos hs2]
        norm_num
      · by_cases hs3 : score < 75
        · simp only [generateLendingAdjustments, if_neg hs, if_neg hs2, if_pos hs3]
          norm_num
        · simp only [generateLendingAdjustments, if_neg hs, if_neg hs2, if_neg hs3]
          norm_num
    refine ⟨?_, fun hlow => absurd hlow hcl, fun _ => hrate⟩
    intro hnil
    rw [hnil] at hrate
    simp at hrate

/-- A concrete factor list with flood sub-score 70 and sea sub-score 60,
as in the spec's severe lending fixture. -/
def severeFixtureFactors : List ClimateFactorScore :=
  [ ⟨"Flood Probability", 70, 0.35, 24.5, "", ""⟩,
    ⟨"Sea-Level Rise Exposure", 60, 0.25, 15, "", ""⟩,
    ⟨"Heat Stress Index", 80, 0.25, 20, "", ""⟩,
    ⟨"Water Scarcity Projection", 90, 0.15, 13.5, "", ""⟩ ]

lemma toFixed_five_halves : toFixed 1 (5/2 : ℚ) = "2.5" := by
  have hf : (⌊|(5/2 : ℚ)| * (10 : ℚ) ^ 1 + 1/2⌋ : ℤ) = 25 :=
    floor_eval 25
      (by rw [abs_of_nonneg (by norm_num : (0:ℚ) ≤ 5/2)]; norm_num)
      (by rw [abs_of_nonneg (by norm_num : (0:ℚ) ≤ 5/2)]; norm_num)
  simp only [toFixed, if_neg (by norm_num : ¬ (5/2 : ℚ) < 0), hf]
  rfl

lemma findScoreD_flood_fixture :
    findScoreD "Flood Probability" 0 severeFixtureFactors = 70 := by
  simp [findScoreD, severeFixtureFactors, List.find?]

lemma findScoreD_sea_fixture :
    findScoreD "Sea-Level Rise Exposure" 0 severeFixtureFactors = 60 := by
  simp [findScoreD, severeFixtureFactors, List.find?]

/-- Counterexample to claim C1: on the spec's severe fixture (score 82,
Severe, residential, flood sub-score 70, sea sub-score 60), the third
adjustment — the coastal hazard insurance — has severity `warning`, not
`critical`, because the critical escalation requires a sea sub-score
strictly above 70. -/
theorem C1_counterexample :
    (generateLendingAdjustments 82 .Severe "residential" severeFixtureFactors).map
        (fun a => a.severity) =
      [.critical, .critical, .warning, .critical, .critical] ∧
    ¬ ((generateLendingAdjustments 82 .Severe "residential" severeFixtureFactors).map
        (fun a => a.severity) =
      [.critical, .critical, .critical, .critical, .critical]) := by
  constructor
  · norm_num [generateLendingAdjustments, findScoreD_flood_fixture,
      findScoreD_sea_fixture]
    decide
  · norm_num [generateLendingAdjustments, findScoreD_flood_fixture,
      findScoreD_sea_fixture]
    decide

/-- Claim C1 as amended: with score 82, classification Severe, property
type residential, flood sub-score 70 and sea sub-score 60, exactly the
five expected adjustments are produced in order, except that the coastal
hazard insurance entry has severity `warning` (the code escalates it to
critical only above a sea sub-score of 70). -/
theorem C1_amended (factors : List ClimateFactorScore)
    (hf : findScoreD "Flood Probability" 0 factors = 70)
    (hs : findScoreD "Sea-Level Rise Exposure" 0 factors = 60) :
    (generateLendingAdjustments 82 .Severe "residential" factors).map
        (fun a => (a.type, a.title, a.value, a.severity)) =
      [(.interest_rate, "Climate Risk Premium", "+2.5% p.a.", .critical),
       (.insurance, "Mandatory Flood Insurance", "Mandatory", .critical),
       (.insurance, "Coastal Hazard Insurance", "Required", .warning),
       (.loan_cap, "Loan-to-Value Cap", "Max 60% LTV", .critical),
       (.enhanced_due_diligence, "Enhanced Climate Due Diligence", "Required", .critical)] := by
  norm_num [generateLendingAdjustments, hf, hs]
  refine ⟨?_, ?_, ?_, ?_⟩
  · rw [toFixed_five_halves]
    decide
  · rfl
  · decide
  · decide

/-- Witness for C1 (amended) at the concrete severe fixture. -/
theorem C1_witness :
    findScoreD "Flood Probability" 0 severeFixtureFactors = 70 ∧
    findScoreD "Sea-Level Rise Exposure" 0 severeFixtureFactors = 60 ∧
    (generateLendingAdjustments 82 .Severe "residential" severeFixtureFactors).map
        (fun a => (a.type, a.title, a.value, a.severity)) =
      [(.interest_rate, "Climate Risk Premium", "+2.5% p.a.", .critical),
       (.insurance, "Mandatory Flood Insurance", "Mandatory", .critical),
       (.insurance, "Coastal Hazard Insurance", "Required", .warning),
       (.loan_cap, "Loan-to-Value Cap", "Max 60% LTV", .critical),
       (.enhanced_due_diligence, "Enhanced Climate Due Diligence", "Required", .critical)] :=
  ⟨findScoreD_flood_fixture, findScoreD_sea_fixture,
   C1_amended severeFixtureFactors findScoreD_flood_fixture findScoreD_sea_fixture⟩

lemma weighted_bengaluru :
    (calculateFactorScores 12.97 77.59 "residential" 0 0 0 0).map
      (fun f => f.weighted_score) = [13.3, 3, 18.3, 8.3] := by
  simp only [calculateFactorScores, getRegionProfile_bengaluru]
  norm_num [propertyModifiers]
  have c1 : clampQ (38 : ℚ) = 38 := by
    simpa using clampQ_eval (v := (38 : ℚ)) 38 (by norm_num) (by norm_num)
      (by norm_num) (by norm_num)
  have c2 : clampQ (12 : ℚ) = 12 := by
    simpa using clampQ_eval (v := (12 : ℚ)) 12 (by norm_num) (by norm_num)
      (by norm_num) (by norm_num)
  have c3 : clampQ (73 : ℚ) = 73 := by
    simpa using clampQ_eval (v := (73 : ℚ)) 73 (by norm_num) (by norm_num)
      (by norm_num) (by norm_num)
  have c4 : clampQ (55 : ℚ) = 55 := by
    simpa using clampQ_eval (v := (55 : ℚ)) 55 (by norm_num) (by norm_num)
      (by norm_num) (by norm_num)
  refine ⟨?_, ?_, ?_, ?_⟩
  · rw [c1]
    have h := round1_eval (x := (38 : ℚ) * (7/20)) 133 (by norm_num) (by norm_num)
      (by norm_num)
    rw [h]
    norm_num
  · rw [c2]
    have h := round1_eval (x := (12 : ℚ) * (1/4)) 30 (by norm_num) (by norm_num)
      (by norm_num)
    rw [h]
    norm_num
  · rw [c3]
    have h := round1_eval (x := (73 : ℚ) * (1/4)) 183 (by norm_num) (by norm_num)
      (by norm_num)
    rw [h]
    norm_num
  · rw [c4]
    have h := round1_eval (x := (55 : ℚ) * (3/20)) 83 (by norm_num) (by norm_num)
      (by norm_num)
    rw [h]
    norm_num

/-- Counterexample to claim C2: for the Bengaluru point with residential
type and all noise draws 0, the report stores the composite score 43 —
`Math.round` of the weighted sum 42.9 clamped to [0,100] — while round1 of
the weighted sum is 42.9, so the stored score is not round1 of the sum. -/
theorem C2_counterexample :
    (runClimateAssessment 12.97 77.59 "residential" 0 0 0 0 2024).climate_risk_score = 43 ∧
    round1 (((runClimateAssessment 12.97 77.59 "residential" 0 0 0 0 2024).factors.map
        (fun f => f.weighted_score)).sum) = 42.9 ∧
    (runClimateAssessment 12.97 77.59 "residential" 0 0 0 0 2024).climate_risk_score ≠
      round1 (((runClimateAssessment 12.97 77.59 "residential" 0 0 0 0 2024).factors.map
        (fun f => f.weighted_score)).sum) := by
  have hfac : (runClimateAssessment 12.97 77.59 "residential" 0 0 0 0 2024).factors =
      calculateFactorScores 12.97 77.59 "residential" 0 0 0 0 := rfl
  have hsum : ((runClimateAssessment 12.97 77.59 "residential" 0 0 0 0 2024).factors.map
      (fun f => f.weighted_score)).sum = 42.9 := by
    rw [hfac, weighted_bengaluru]
    norm_num
  have hscore :
      (runClimateAssessment 12.97 77.59 "residential" 0 0 0 0 2024).climate_risk_score = 43 := by
    show min 100 (max 0 ((jsRound (((calculateFactorScores 12.97 77.59 "residential" 0 0 0 0).map
      (fun f => f.weighted_score)).sum) : ℤ) : ℚ)) = 43
    rw [weighted_bengaluru]
    have hj : jsRound ((((13.3 : ℚ)) :: (3 : ℚ) :: (18.3 : ℚ) :: (8.3 : ℚ) :: []).sum) = 43 := by
      have hs : (((13.3 : ℚ)) :: (3 : ℚ) :: (18.3 : ℚ) :: (8.3 : ℚ) :: []).sum = 42.9 := by
        simp
        norm_num
      rw [hs]
      unfold jsRound
      exact floor_eval 43 (by norm_num) (by norm_num)
    rw [hj]
    norm_num
  have hr : round1 ((42.9 : ℚ)) = 42.9 := by
    have h := round1_eval (x := (42.9 : ℚ)) 429 (by norm_num) (by norm_num) (by norm_num)
    rw [h]
    norm_num
  refine ⟨hscore, by rw [hsum, hr], ?_⟩
  rw [hscore, hsum, hr]
  norm_num

/-- Claim C2 as amended: the composite score stored in the assembled
report is the weighted-score sum rounded to the nearest integer and
clamped to [0,100] (`Math.min(100, Math.max(0, Math.round(sum)))`), not
the sum rounded to one decimal place. -/
theorem C2_amended (lat lng n1 n2 n3 n4 : ℚ) (pt : String) (yr : ℤ) :
    (runClimateAssessment lat lng pt n1 n2 n3 n4 yr).climate_risk_score =
      min 100 (max 0 ((jsRound (((runClimateAssessment lat lng pt n1 n2 n3 n4 yr).factors.map
        (fun f => f.weighted_score)).sum) : ℤ) : ℚ)) := rfl

/-- Claim C8: with noise draws in [-6, 6], each of the four hazard scores
equals `clamp0_100(round(base + modifier + noise))` for the resolved
region profile and property-type modifier, and each such clamped score
lies in [0, 100]. -/
theorem C8_scores_clamped (lat lng n1 n2 n3 n4 : ℚ) (pt : String)
    (_h1a : -6 ≤ n1) (_h1b : n1 ≤ 6) (_h2a : -6 ≤ n2) (_h2b : n2 ≤ 6)
    (_h3a : -6 ≤ n3) (_h3b : n3 ≤ 6) (_h4a : -6 ≤ n4) (_h4b : n4 ≤ 6) :
    (calculateFactorScores lat lng pt n1 n2 n3 n4).map (fun f => f.score) =
      [clampQ ((getRegionProfile lat lng).flood_base +
         ((propertyModifiers pt).getD ⟨0, 5, 0, 0⟩).flood + n1),
       clampQ ((getRegionProfile lat lng).sea_level_base +
         ((propertyModifiers pt).getD ⟨0, 5, 0, 0⟩).sea + n2),
       clampQ ((getRegionProfile lat lng).heat_base +
         ((propertyModifiers pt).getD ⟨0, 5, 0, 0⟩).heat + n3),
       clampQ ((getRegionProfile lat lng).water_scarcity_base +
         ((propertyModifiers pt).getD ⟨0, 5, 0, 0⟩).water + n4)] ∧
    (0 ≤ clampQ ((getRegionProfile lat lng).flood_base +
         ((propertyModifiers pt).getD ⟨0, 5, 0, 0⟩).flood + n1) ∧
       clampQ ((getRegionProfile lat lng).flood_base +
         ((propertyModifiers pt).getD ⟨0, 5, 0, 0⟩).flood + n1) ≤ 100) ∧
    (0 ≤ clampQ ((getRegionProfile lat lng).sea_level_base +
         ((propertyModifiers pt).getD ⟨0, 5, 0, 0⟩).sea + n2) ∧
       clampQ ((getRegionProfile lat lng).sea_level_base +
         ((propertyModifiers pt).getD ⟨0, 5, 0, 0⟩).sea + n2) ≤ 100) ∧
    (0 ≤ clampQ ((getRegionProfile lat lng).heat_base +
         ((propertyModifiers pt).getD ⟨0, 5, 0, 0⟩).heat + n3) ∧
       clampQ ((getRegionProfile lat lng).heat_base +
         ((propertyModifiers pt).getD ⟨0, 5, 0, 0⟩).heat + n3) ≤ 100) ∧
    (0 ≤ clampQ ((getRegionProfile lat lng).water_scarcity_base +
         ((propertyModifiers pt).getD ⟨0, 5, 0, 0⟩).water + n4) ∧
       clampQ ((getRegionProfile lat lng).water_scarcity_base +
         ((propertyModifiers pt).getD ⟨0, 5, 0, 0⟩).water + n4) ≤ 100) :=
  ⟨rfl,
   ⟨clampQ_nonneg _, clampQ_le_hundred _⟩,
   ⟨clampQ_nonneg _, clampQ_le_hundred _⟩,
   ⟨clampQ_nonneg _, clampQ_le_hundred _⟩,
   ⟨clampQ_nonneg _, clampQ_le_hundred _⟩⟩

lemma getRegionProfile_mumbai :
    getRegionProfile 19.05 72.83 =
      { name := "Mumbai Metropolitan Area", region := "Maharashtra Coast",
        flood_base := 78, sea_level_base := 74, heat_base := 65,
        water_scarcity_base := 45 } := by
  have hc : chennaiBox 19.05 72.83 = false := by simp only [chennaiBox]; norm_num
  have hm : mumbaiBox 19.05 72.83 = true := by simp only [mumbaiBox]; norm_num
  rw [getRegionProfile, hc, hm]
  simp

/-- Witness for C8 at the Mumbai box with residential type and zero
noise; the four clamped scores evaluate to 78, 74, 70 and 45. -/
theorem C8_witness :
    ((-6 : ℚ) ≤ 0 ∧ (0 : ℚ) ≤ 6) ∧
    (calculateFactorScores 19.05 72.83 "residential" 0 0 0 0).map
      (fun f => f.score) = [78, 74, 70, 45] ∧
    (0 ≤ (78 : ℚ) ∧ (78 : ℚ) ≤ 100) ∧ (0 ≤ (74 : ℚ) ∧ (74 : ℚ) ≤ 100) ∧
    (0 ≤ (70 : ℚ) ∧ (70 : ℚ) ≤ 100) ∧ (0 ≤ (45 : ℚ) ∧ (45 : ℚ) ≤ 100) := by
  have h := C8_scores_clamped 19.05 72.83 0 0 0 0 "residential"
    (by norm_num) (by norm_num) (by norm_num) (by norm_num)
    (by norm_num) (by norm_num) (by norm_num) (by norm_num)
  have e1 : clampQ ((getRegionProfile 19.05 72.83).flood_base +
      ((propertyModifiers "residential").getD ⟨0, 5, 0, 0⟩).flood + 0) = 78 := by
    rw [getRegionProfile_mumbai]
    norm_num [propertyModifiers]
    simpa using clampQ_eval (v := (78 : ℚ)) 78 (by norm_num) (by norm_num)
      (by norm_num) (by norm_num)
  have e2 : clampQ ((getRegionProfile 19.05 72.83).sea_level_base +
      ((propertyModifiers "residential").getD ⟨0, 5, 0, 0⟩).sea + 0) = 74 := by
    rw [getRegionProfile_mumbai]
    norm_num [propertyModifiers]
    simpa using clampQ_eval (v := (74 : ℚ)) 74 (by norm_num) (by norm_num)
      (by norm_num) (by norm_num)
  have e3 : clampQ ((getRegionProfile 19.05 72.83).heat_base +
      ((propertyModifiers "residential").getD ⟨0, 5, 0, 0⟩).heat + 0) = 70 := by
    rw [getRegionProfile_mumbai]
    norm_num [propertyModifiers]
    simpa using clampQ_eval (v := (70 : ℚ)) 70 (by norm_num) (by norm_num)
      (by norm_num) (by norm_num)
  have e4 : clampQ ((getRegionProfile 19.05 72.83).water_scarcity_base +
      ((propertyModifiers "residential").getD ⟨0, 5, 0, 0⟩).water + 0) = 45 := by
    rw [getRegionProfile_mumbai]
    norm_num [propertyModifiers]
    simpa using clampQ_eval (v := (45 : ℚ)) 45 (by norm_num) (by norm_num)
      (by norm_num) (by norm_num)
  refine ⟨⟨by norm_num, by norm_num⟩, ?_, ?_, ?_, ?_, ?_⟩
  · rw [h.1, e1, e2, e3, e4]
  · rw [← e1]; exact h.2.1
  · rw [← e2]; exact h.2.2.1
  · rw [← e3]; exact h.2.2.2.1
  · rw [← e4]; exact h.2.2.2.2



lemma generateProjections_length (yr : ℤ) (factors : List ClimateFactorScore) :
    (generateProjections yr factors).length = 11 := by
  simp [generateProjections]

lemma generateProjections_get? (yr : ℤ) (factors : List ClimateFactorScore)
    (k : ℕ) (hk : k < 11) :
    (generateProjections yr factors).get? k =
      some (projectionPoint (findScoreD "Flood Probability" 50 factors)
        (findScoreD "Heat Stress Index" 50 factors)
        (findScoreD "Sea-Level Rise Exposure" 50 factors)
        (findScoreD "Water Scarcity Projection" 50 factors) yr k) := by
  simp only [generateProjections, List.get?_eq_getElem?, List.getElem?_map,
    List.getElem?_range hk]
  rfl

lemma proj_series_getD (yr : ℤ) (factors : List ClimateFactorScore)
    (g : ProjectionDataPoint → ℚ) (k : ℕ) (hk : k < 11) :
    ((generateProjections yr factors).map g).getD k 0 =
      g (projectionPoint (findScoreD "Flood Probability" 50 factors)
        (findScoreD "Heat Stress Index" 50 factors)
        (findScoreD "Sea-Level Rise Exposure" 50 factors)
        (findScoreD "Water Scarcity Projection" 50 factors) yr k) := by
  have hl : k < ((generateProjections yr factors).map g).length := by
    simpa [generateProjections_length] using hk
  rw [List.getD_eq_getElem _ _ hl]
  simp only [generateProjections, List.getElem_map, List.getElem_range]

/-- Claim C6: `generateProjections` yields 11 points; point `i` has year
`baseYear + 2i` and each hazard equals
`round1(min(100, base + t*rate1 + t^2*rate2))` with `t = i/10` and the
fixed per-hazard rates, the composite is the 0.35/0.25/0.25/0.15 weighted
sum of the unclamped curve values rounded to one decimal, and — when the
four bases are at most 100 — the composite at index 0 is within rounding
tolerance (1/20) of the weighted sum of the input factor scores. -/
theorem C6_projection_points (yr : ℤ) (factors : List ClimateFactorScore) :
    (generateProjections yr factors).length = 11 ∧
    (∀ i : Fin 11,
      (generateProjections yr factors).get? (i : ℕ) =
        some { year := yr + 2 * ((i : ℕ) : ℤ),
               flood_risk := round1 (min 100 (findScoreD "Flood Probability" 50 factors +
                 ((i : ℕ) : ℚ) / 10 * 18 + (((i : ℕ) : ℚ) / 10) ^ 2 * 7)),
               heat_stress := round1 (min 100 (findScoreD "Heat Stress Index" 50 factors +
                 ((i : ℕ) : ℚ) / 10 * 15 + (((i : ℕ) : ℚ) / 10) ^ 2 * 9)),
               sea_level_rise := round1 (min 100 (findScoreD "Sea-Level Rise Exposure" 50 factors +
                 ((i : ℕ) : ℚ) / 10 * 22 + (((i : ℕ) : ℚ) / 10) ^ 2 * 5)),
               water_scarcity := round1 (min 100 (findScoreD "Water Scarcity Projection" 50 factors +
                 ((i : ℕ) : ℚ) / 10 * 12 + (((i : ℕ) : ℚ) / 10) ^ 2 * 6)),
               composite_risk := round1 (
                 0.35 * min 100 (findScoreD "Flood Probability" 50 factors +
                   ((i : ℕ) : ℚ) / 10 * 18 + (((i : ℕ) : ℚ) / 10) ^ 2 * 7) +
                 0.25 * min 100 (findScoreD "Sea-Level Rise Exposure" 50 factors +
                   ((i : ℕ) : ℚ) / 10 * 22 + (((i : ℕ) : ℚ) / 10) ^ 2 * 5) +
                 0.25 * min 100 (findScoreD "Heat Stress Index" 50 factors +
                   ((i : ℕ) : ℚ) / 10 * 15 + (((i : ℕ) : ℚ) / 10) ^ 2 * 9) +
                 0.15 * min 100 (findScoreD "Water Scarcity Projection" 50 factors +
                   ((i : ℕ) : ℚ) / 10 * 12 + (((i : ℕ) : ℚ) / 10) ^ 2 * 6)) }) ∧
    (findScoreD "Flood Probability" 50 factors ≤ 100 →
     findScoreD "Sea-Level Rise Exposure" 50 factors ≤ 100 →
     findScoreD "Heat Stress Index" 50 factors ≤ 100 →
     findScoreD "Water Scarcity Projection" 50 factors ≤ 100 →
     |((generateProjections yr factors).map (fun p => p.composite_risk)).getD 0 0 -
       (0.35 * findScoreD "Flood Probability" 50 factors +
        0.25 * findScoreD "Sea-Level Rise Exposure" 50 factors +
        0.25 * findScoreD "Heat Stress Index" 50 factors +
        0.15 * findScoreD "Water Scarcity Projection" 50 factors)| ≤ 1/20) := by
  refine ⟨generateProjections_length yr factors, ?_, ?_⟩
  · intro i
    rw [generateProjections_get? yr factors _ i.isLt]
    simp only [projectionPoint, Option.some.injEq, ProjectionDataPoint.mk.injEq]
    refine ⟨by ring, ?_, ?_, ?_, ?_, ?_⟩ <;>
      · congr 1
        simp only [← pow_two]
        try ring
  · intro hf hs hh hw
    rw [proj_series_getD yr factors _ 0 (by norm_num)]
    simp only [projectionPoint]
    norm_num
    rw [min_eq_right hf, min_eq_right hs, min_eq_right hh, min_eq_right hw]
    have key := abs_round1_sub_le (findScoreD "Flood Probability" 50 factors * (7/20) +
      findScoreD "Sea-Level Rise Exposure" 50 factors * (1/4) +
      findScoreD "Heat Stress Index" 50 factors * (1/4) +
      findScoreD "Water Scarcity Projection" 50 factors * (3/20))
    have hBA : 7/20 * findScoreD "Flood Probability" 50 factors +
        1/4 * findScoreD "Sea-Level Rise Exposure" 50 factors +
        1/4 * findScoreD "Heat Stress Index" 50 factors +
        3/20 * findScoreD "Water Scarcity Projection" 50 factors =
        findScoreD "Flood Probability" 50 factors * (7/20) +
        findScoreD "Sea-Level Rise Exposure" 50 factors * (1/4) +
        findScoreD "Heat Stress Index" 50 factors * (1/4) +
        findScoreD "Water Scarcity Projection" 50 factors * (3/20) := by ring
    rw [hBA]
    exact key

/-- Witness for C6 on the empty factor list, whose defaulted bases are all
50: the composite at index 0 is within 1/20 of the weighted base sum. -/
theorem C6_witness :
    (generateProjections 2024 []).length = 11 ∧
    (findScoreD "Flood Probability" 50 [] ≤ 100 ∧
     findScoreD "Sea-Level Rise Exposure" 50 [] ≤ 100 ∧
     findScoreD "Heat Stress Index" 50 [] ≤ 100 ∧
     findScoreD "Water Scarcity Projection" 50 [] ≤ 100) ∧
    |((generateProjections 2024 []).map (fun p => p.composite_risk)).getD 0 0 -
      (0.35 * findScoreD "Flood Probability" 50 [] +
       0.25 * findScoreD "Sea-Level Rise Exposure" 50 [] +
       0.25 * findScoreD "Heat Stress Index" 50 [] +
       0.15 * findScoreD "Water Scarcity Projection" 50 [])| ≤ 1/20 := by
  have h := C6_projection_points 2024 []
  have hf : findScoreD "Flood Probability" 50 ([] : List ClimateFactorScore) ≤ 100 := by
    norm_num [findScoreD]
  have hs : findScoreD "Sea-Level Rise Exposure" 50 ([] : List ClimateFactorScore) ≤ 100 := by
    norm_num [findScoreD]
  have hh : findScoreD "Heat Stress Index" 50 ([] : List ClimateFactorScore) ≤ 100 := by
    norm_num [findScoreD]
  have hw : findScoreD "Water Scarcity Projection" 50 ([] : List ClimateFactorScore) ≤ 100 := by
    norm_num [findScoreD]
  exact ⟨h.1, ⟨hf, hs, hh, hw⟩, h.2.2 hf hs hh hw⟩

/-- Claim C7: for any fixed factor list, each of the four projected hazard
series is non-decreasing across the 11 points and saturates: a point that
reads 100 forces every later point of that series to 100. -/
theorem C7_projection_monotone_saturating (yr : ℤ) (factors : List ClimateFactorScore)
    (i j : Fin 11) (hij : (i : ℕ) ≤ (j : ℕ)) :
    (((generateProjections yr factors).map (fun p => p.flood_risk)).getD (i : ℕ) 0 ≤
       ((generateProjections yr factors).map (fun p => p.flood_risk)).getD (j : ℕ) 0 ∧
     (((generateProjections yr factors).map (fun p => p.flood_risk)).getD (i : ℕ) 0 = 100 →
       ((generateProjections yr factors).map (fun p => p.flood_risk)).getD (j : ℕ) 0 = 100)) ∧
    (((generateProjections yr factors).map (fun p => p.heat_stress)).getD (i : ℕ) 0 ≤
       ((generateProjections yr factors).map (fun p => p.heat_stress)).getD (j : ℕ) 0 ∧
     (((generateProjections yr factors).map (fun p => p.heat_stress)).getD (i : ℕ) 0 = 100 →
       ((generateProjections yr factors).map (fun p => p.heat_stress)).getD (j : ℕ) 0 = 100)) ∧
    (((generateProjections yr factors).map (fun p => p.sea_level_rise)).getD (i : ℕ) 0 ≤
       ((generateProjections yr factors).map (fun p => p.sea_level_rise)).getD (j : ℕ) 0 ∧
     (((generateProjections yr factors).map (fun p => p.sea_level_rise)).getD (i : ℕ) 0 = 100 →
       ((generateProjections yr factors).map (fun p => p.sea_level_rise)).getD (j : ℕ) 0 = 100)) ∧
    (((generateProjections yr factors).map (fun p => p.water_scarcity)).getD (i : ℕ) 0 ≤
       ((generateProjections yr factors).map (fun p => p.water_scarcity)).getD (j : ℕ) 0 ∧
     (((generateProjections yr factors).map (fun p => p.water_scarcity)).getD (i : ℕ) 0 = 100 →
       ((generateProjections yr factors).map (fun p => p.water_scarcity)).getD (j : ℕ) 0 = 100)) := by
  have hi := i.isLt
  have hj := j.isLt
  have hij2 : ((i : ℕ) : ℚ) ≤ ((j : ℕ) : ℚ) := by exact_mod_cast hij
  have hi0 : (0 : ℚ) ≤ ((i : ℕ) : ℚ) := Nat.cast_nonneg _
  have hsq : ((i : ℕ) : ℚ) * ((i : ℕ) : ℚ) ≤ ((j : ℕ) : ℚ) * ((j : ℕ) : ℚ) :=
    mul_le_mul hij2 hij2 hi0 (le_trans hi0 hij2)
  rw [proj_series_getD yr factors _ _ hi, proj_series_getD yr factors _ _ hj,
    proj_series_getD yr factors _ _ hi, proj_series_getD yr factors _ _ hj,
    proj_series_getD yr factors _ _ hi, proj_series_getD yr factors _ _ hj,
    proj_series_getD yr factors _ _ hi, proj_series_getD yr factors _ _ hj]
  simp only [projectionPoint]
  refine ⟨⟨?_, ?_⟩, ⟨?_, ?_⟩, ⟨?_, ?_⟩, ⟨?_, ?_⟩⟩
  · exact round1_mono (min_le_min (le_refl 100) (by nlinarith))
  · exact round1_min_hundred_sat (by nlinarith)
  · exact round1_mono (min_le_min (le_refl 100) (by nlinarith))
  · exact round1_min_hundred_sat (by nlinarith)
  · exact round1_mono (min_le_min (le_refl 100) (by nlinarith))
  · exact round1_min_hundred_sat (by nlinarith)
  · exact round1_mono (min_le_min (le_refl 100) (by nlinarith))
  · exact round1_min_hundred_sat (by nlinarith)

/-- Factor list whose four scores already sit at the cap of 100, so every
projected series saturates from the first point. -/
def satFixtureFactors : List ClimateFactorScore :=
  [ ⟨"Flood Probability", 100, 0.35, 35, "", ""⟩,
    ⟨"Sea-Level Rise Exposure", 100, 0.25, 25, "", ""⟩,
    ⟨"Heat Stress Index", 100, 0.25, 25, "", ""⟩,
    ⟨"Water Scarcity Projection", 100, 0.15, 15, "", ""⟩ ]

/-- Witness for C7 on the saturating fixture at indices 0 and 1: the flood
series is monotone there, reads 100 at index 0, and stays at 100. -/
theorem C7_witness :
    ((generateProjections 2024 satFixtureFactors).map (fun p => p.flood_risk)).getD 0 0 ≤
      ((generateProjections 2024 satFixtureFactors).map (fun p => p.flood_risk)).getD 1 0 ∧
    ((generateProjections 2024 satFixtureFactors).map (fun p => p.flood_risk)).getD 0 0 = 100 ∧
    ((generateProjections 2024 satFixtureFactors).map (fun p => p.flood_risk)).getD 1 0 = 100 := by
  have h := C7_projection_monotone_saturating 2024 satFixtureFactors 0 1 (by decide)
  have h0 : ((generateProjections 2024 satFixtureFactors).map
      (fun p => p.flood_risk)).getD 0 0 = 100 := by
    rw [proj_series_getD _ _ _ 0 (by norm_num)]
    simp only [projectionPoint]
    have hfb : findScoreD "Flood Probability" 50 satFixtureFactors = 100 := by
      simp [findScoreD, satFixtureFactors, List.find?]
    rw [hfb]
    norm_num
    exact round1_hundred
  exact ⟨h.1.1, h0, h.1.2 h0⟩

/-- Witness for C10 at score 10 with the matching Low classification. -/
theorem C10_witness :
    (RiskClassification.Low = classifyRisk 10) ∧
    generateLendingAdjustments 10 .Low "residential" [] ≠ [] ∧
    (AdjustmentType.risk_warning, "Standard Lending Terms Applicable", Severity.info) ∈
      (generateLendingAdjustments 10 .Low "residential" []).map
        (fun a => (a.type, a.title, a.severity)) := by
  have hc : RiskClassification.Low = classifyRisk 10 :=
    ((classifyRisk_iff 10).1.mpr (by norm_num)).symm
  have h := C10_consistent_nonempty 10 .Low "residential" [] hc
  exact ⟨hc, h.1, h.2.1 rfl⟩

end ClimateGuardian
